import Mathlib

/-!
Shallow embedding of the BNB Financial Manager core (category hierarchy,
duplicate detection, internal-transfer detection, rule matching, import
pipeline) from `src/models/category_model.py`, `src/models/transaction_model.py`
and `src/controllers/`, together with theorems settling the frozen claims.

Conventions of the embedding:
* SQL TEXT values are `String`; SQL `LIKE 'x.%'` on the digit-and-dot
  category ids is a prefix test (ids contain no letters, so SQLite's
  ASCII case folding is irrelevant).
* `DECIMAL`/Python `Decimal`/`float` amounts are `Rat`; the epsilon
  comparisons (`< 0.01`) are carried over literally.  None of the claims
  below hinges on binary floating-point rounding.
* Python `datetime` is `PyDate`: a rational timestamp measured in days (so
  `timedelta(days = n)` is `+ n`) together with its calendar year.  ISO-8601
  string comparison in SQL agrees with chronological comparison, so SQL
  `date BETWEEN a AND b` is a comparison on the timestamp.
* Exceptions are `Except`; a rolled-back operation returns the caller's
  state unchanged.  Points where the code catches database errors take an
  explicit error-injection flag.
* Table rows live in Lean lists in rowid order; the autoincrement rowid of
  `transactions` is `nextTransId`.
-/

namespace BNB

/-- Python `datetime`: a timestamp in days (fractional part = time of day)
plus its calendar year (`.year`).  `timedelta(days=n)` adds `n` to `time`. -/
structure PyDate where
  time : ℚ
  year : Int
deriving DecidableEq, Repr

/-! ### Character-level string helpers

`String.replace`/`splitOn`/`isPrefixOf` from core use well-founded recursion
on byte positions, which the kernel cannot evaluate; the SQL/Python string
operations are therefore re-implemented structurally on `List Char`. -/

/-- Does `pat` occur as a prefix of `l`? (structural wrapper over core) -/
def listPrefix (pat l : List Char) : Bool :=
  match pat, l with
  | [], _ => true
  | _ :: _, [] => false
  | p :: ps, c :: cs => p == c && listPrefix ps cs

/-- SQL `LIKE 'pat%'` over our digit-and-dot ids: a prefix test. -/
def strPrefix (pat s : String) : Bool :=
  listPrefix pat.data s.data

/-- Replacement engine for SQLite `REPLACE(s, pat, rep)`: scans left to
right, replacing non-overlapping occurrences.  `skip` counts characters of a
just-matched occurrence still to be consumed. -/
def replaceGo (pat rep : List Char) : Nat → List Char → List Char
  | _ + 1, [] => []
  | n + 1, _ :: rest => replaceGo pat rep n rest
  | 0, [] => []
  | 0, c :: rest =>
    if listPrefix pat (c :: rest) then
      rep ++ replaceGo pat rep (pat.length - 1) rest
    else
      c :: replaceGo pat rep 0 rest

/-- SQLite `REPLACE(s, pat, rep)`: all occurrences, left to right; an empty
pattern leaves the string unchanged. -/
def sqlReplace (s pat rep : String) : String :=
  if pat = "" then s else ⟨replaceGo pat.data rep.data 0 s.data⟩

/-- Python `needle in haystack` (substring containment). -/
def containsSub (pat : List Char) : List Char → Bool
  | [] => pat.isEmpty
  | c :: rest => listPrefix pat (c :: rest) || containsSub pat rest

/-- Python `m in s` for strings. -/
def strContains (s m : String) : Bool :=
  containsSub m.data s.data

/-- Python `s.split('.')` (structural). -/
def splitChar (sep : Char) : List Char → List (List Char)
  | [] => [[]]
  | c :: rest =>
    let r := splitChar sep rest
    if c = sep then [] :: r
    else
      match r with
      | [] => [[c]]
      | h :: t => (c :: h) :: t

/-- Python `s.split('.')` as strings. -/
def splitDots (s : String) : List String :=
  (splitChar '.' s.data).map (fun l => ⟨l⟩)

/-- Python `s.split('.')[-1]`: the last dotted segment. -/
def lastSegment (s : String) : String :=
  (splitDots s).getLastD ""

/-- Python `int(seg)` on a digit string (`ValueError` = `none`); structural
restatement of `String.toNat?`. -/
def pyInt? (s : String) : Option Nat :=
  if s.data ≠ [] ∧ s.data.all (·.isDigit) then
    some (s.data.foldl (fun n c => n * 10 + (c.toNat - '0'.toNat)) 0)
  else none

/-- Python `s.lower()` (ASCII, which covers the data in this repository). -/
def strLower (s : String) : String :=
  ⟨s.data.map Char.toLower⟩

/-! ### Data model (§3): table rows and database state -/

/-- Row of the `categories` table. -/
structure CategoryRow where
  id : String
  name : String
  parent_id : Option String
  category_type : String
  tax_type : Option String
  is_bank_account : Bool
deriving DecidableEq, Repr

/-- Row of the `transactions` table (the columns the core reads/writes). -/
structure TransactionRow where
  id : Nat
  date : PyDate
  account : String
  description : String
  withdrawal : ℚ
  deposit : ℚ
  category_id : Option String
  is_hidden : Bool
  is_matched : Bool
  is_internal_transfer : Bool
  balance : Option ℚ
  transaction_id : Option String
deriving DecidableEq, Repr

/-- Row of the `bank_accounts` table (the columns the import touches). -/
structure BankAccountRow where
  id : String
  current_balance : Option ℚ
  last_import_date : Option ℚ
deriving DecidableEq, Repr

/-- The relational store: rows in rowid order, plus the next transactions
rowid. -/
structure DBState where
  categories : List CategoryRow
  transactions : List TransactionRow
  bank_accounts : List BankAccountRow
  nextTransId : Nat
deriving DecidableEq, Repr

/-- Stable insertion into a `le`-sorted accumulator (used to model SQL
`ORDER BY`; SQLite keeps equal keys in scan order for these queries). -/
def insertSorted (le : α → α → Bool) (x : α) : List α → List α
  | [] => [x]
  | y :: ys => if le y x then y :: insertSorted le x ys else x :: y :: ys

/-- Stable sort by `le` (insertion sort; stability mirrors SQLite scan
order on ties). -/
def sortByStable (le : α → α → Bool) (l : List α) : List α :=
  l.foldl (fun acc x => insertSorted le x acc) []

/-! ### Category hierarchy (`src/models/category_model.py`,
`src/controllers/category_controller.py`) -/

/-- The ids returned by `SELECT id FROM categories WHERE parent_id = ?`. -/
def childIds (cats : List CategoryRow) (parent_id : String) : List String :=
  (cats.filter (fun c => c.parent_id == some parent_id)).map (·.id)

/-- One step of taking the greatest id seen so far (character-wise
lexicographic comparison, as SQLite's binary TEXT collation orders the
ids). -/
def maxStep (acc : Option String) (i : String) : Option String :=
  match acc with
  | none => some i
  | some m => if m.data < i.data then some i else some m

/-- Result of `SELECT id FROM categories WHERE parent_id = ? ORDER BY id
DESC` followed by `existing_ids[0]`: the lexicographically greatest child id
(ids are unique, the table's primary key). -/
def maxChildId (cats : List CategoryRow) (parent_id : String) : Option String :=
  (childIds cats parent_id).foldl maxStep none

/-- The id computation of `add_category` (category_controller.py lines
26-34 / category_model.py lines 113-121): first child gets `parent_id ++
".1"`, otherwise the last dotted segment of the `ORDER BY id DESC` head is
incremented.  `none` when `int()` raises (non-numeric segment). -/
def add_category_new_id (cats : List CategoryRow) (parent_id : String) :
    Option String :=
  match maxChildId cats parent_id with
  | none => some (parent_id ++ ".1")
  | some last_id =>
    match pyInt? (lastSegment last_id) with
    | some n => some (parent_id ++ "." ++ toString (n + 1))
    | none => none

/-- `CategoryController.add_category` (category_controller.py lines 15-46;
`CategoryModel.add_category` is the same computation without the
`is_bank_account` flag).  Modelled from the spec: `schema.sql` is not under
`src/`, but `categories.id` is the table's primary key (the spec's data
model, and the code's reliance on `INSERT OR IGNORE` keyed on id), so an
`INSERT` of an id already present raises and the function returns `False`
leaving the state unchanged. -/
def add_category (st : DBState) (name parent_id category_type : String)
    (tax_type : Option String) (is_bank_account : Bool) : Bool × DBState :=
  match add_category_new_id st.categories parent_id with
  | none => (false, st)
  | some new_id =>
    if st.categories.any (fun c => c.id == new_id) then (false, st)
    else
      (true, { st with categories := st.categories ++
        [⟨new_id, name, some parent_id, category_type, tax_type,
          is_bank_account⟩] })

/-- `CategoryModel.move_category` (category_model.py lines 135-171).  The
single `UPDATE` rewrites `id` by `REPLACE(id, old_id ++ ".", new_id ++ ".")`
for every row with `id = category_id OR id LIKE old_id || '.%'`, and
`parent_id` likewise except for the moved node itself.  No statement touches
the `transactions` table. -/
def move_category (st : DBState) (category_id new_parent_id : String) :
    Bool × DBState :=
  match st.categories.find? (fun c => c.id == category_id) with
  | none => (false, st)
  | some _ =>
    let oldPref := category_id ++ "."
    let siblings := st.categories.filter
      (fun c => c.parent_id == some new_parent_id)
    let new_id := new_parent_id ++ "." ++ toString (siblings.length + 1)
    let newPref := new_id ++ "."
    let cats := st.categories.map (fun c =>
      if c.id == category_id || strPrefix oldPref c.id then
        { c with
          id := sqlReplace c.id oldPref newPref,
          parent_id :=
            if c.id == category_id then some new_parent_id
            else c.parent_id.map (fun p => sqlReplace p oldPref newPref) }
      else c)
    (true, { st with categories := cats })

/-- `CategoryModel.find_next_available_id` (category_model.py lines
309-346).  The initial query collects ids `LIKE base_id || '.%'` when
`base_id` contains a dot (descendants only — never `base_id` itself), else
ids `LIKE base_id || '%'`. -/
def find_next_available_id (st : DBState) (base_id : String) : String :=
  let existing_ids := ((st.categories.filter (fun c =>
      if base_id.data.contains '.' then strPrefix (base_id ++ ".") c.id
      else strPrefix base_id c.id)).map (·.id))
  if !(existing_ids.contains base_id) then base_id
  else
    let parts := splitDots base_id
    let pp := String.intercalate "." parts.dropLast
    let parentPref := if pp = "" then pp else pp ++ "."
    let level_ids := existing_ids.filter (fun i => strPrefix parentPref i)
    let max_num := level_ids.foldl (fun m i =>
      match pyInt? (lastSegment i) with
      | some n => max m n
      | none => m) 0
    parentPref ++ toString (max_num + 1)

/-- `CategoryModel.promote_category` (category_model.py lines 348-405).
Rewrites the subtree ids by prefix substitution, and then updates only
`transactions` rows `WHERE category_id = category_id` (the exact old id, not
descendants). -/
def promote_category (st : DBState) (category_id : String) : Bool × DBState :=
  match st.categories.find? (fun c => c.id == category_id) with
  | none => (false, st)
  | some current =>
    match current.parent_id with
    | none => (false, st)
    | some parentId =>
      if parentId = "" then (false, st)  -- `not current[1]`: "" is falsy too
      else
      match st.categories.find? (fun c => c.id == parentId) with
      | none => (false, st)
      | some parentRow =>
        let newParent : Option String := parentRow.parent_id
        let parentPref :=
          match newParent with
          | some p => if p = "" then "" else p ++ "."
          | none => ""
        match pyInt? (lastSegment category_id) with
        | none => (false, st)
        | some k =>
          let new_id := find_next_available_id st (parentPref ++ toString k)
          let oldPref := category_id ++ "."
          let newPref := new_id ++ "."
          let cats := st.categories.map (fun c =>
            if c.id == category_id || strPrefix oldPref c.id then
              { c with
                id := if c.id == category_id then new_id
                      else sqlReplace c.id oldPref newPref,
                parent_id :=
                  if c.id == category_id then newParent
                  else c.parent_id.map (fun p => sqlReplace p oldPref newPref) }
            else c)
          let trans := st.transactions.map (fun t =>
            if t.category_id == some category_id then
              { t with category_id := some new_id }
            else t)
          (true, { st with categories := cats, transactions := trans })

/-- `CategoryModel.demote_category` (category_model.py lines 407-465).  The
new id is `new_parent_id ++ "." ++ (numeric max of the new parent's
children's last segments + 1)` (`int()` raising on any child aborts with
`False`), or `new_parent_id ++ ".1"` with no children; then the same
prefix-substitution `UPDATE` as promote, and again only `transactions` rows
with the exact old id are repointed. -/
def demote_category (st : DBState) (category_id new_parent_id : String) :
    Bool × DBState :=
  match st.categories.find? (fun c => c.id == category_id) with
  | none => (false, st)
  | some _ =>
    let existing := st.categories.filter
      (fun c => c.parent_id == some new_parent_id)
    let segs := existing.map (fun c => pyInt? (lastSegment c.id))
    let new_id? : Option String :=
      if existing.isEmpty then some (new_parent_id ++ ".1")
      else if segs.all (·.isSome) then
        some (new_parent_id ++ "." ++ toString
          ((segs.foldr (fun s m =>
            match s with
            | some n => max n m
            | none => m) 0) + 1))
      else none
    match new_id? with
    | none => (false, st)
    | some new_id =>
      let oldPref := category_id ++ "."
      let newPref := new_id ++ "."
      let cats := st.categories.map (fun c =>
        if c.id == category_id || strPrefix oldPref c.id then
          { c with
            id := if c.id == category_id then new_id
                  else sqlReplace c.id oldPref newPref,
            parent_id :=
              if c.id == category_id then some new_parent_id
              else c.parent_id.map (fun p => sqlReplace p oldPref newPref) }
        else c)
      let trans := st.transactions.map (fun t =>
        if t.category_id == some category_id then
          { t with category_id := some new_id }
        else t)
      (true, { st with categories := cats, transactions := trans })

/-! ### Import records (`src/utils/qif_parser.py`, `src/utils/csv_parser.py`)
and duplicate detection (`src/models/transaction_model.py`) -/

/-- A parsed QIF record (`QIFTransaction`): the fields the import reads. -/
structure QIFRec where
  date : PyDate
  amount : ℚ
  payee : String
  memo : Option String
deriving DecidableEq, Repr

/-- A parsed CSV record (`CSVTransaction`): the fields the import reads. -/
structure CSVRec where
  date : PyDate
  amount : ℚ
  payee : String
  memo : Option String
  balance : Option ℚ
  transaction_id : Option String
deriving DecidableEq, Repr

/-- `withdrawal = float(abs(trans.amount)) if trans.amount < 0 else 0.0`. -/
def qifWithdrawal (amount : ℚ) : ℚ :=
  if amount < 0 then |amount| else 0

/-- `deposit = float(trans.amount) if trans.amount > 0 else 0.0`. -/
def qifDeposit (amount : ℚ) : ℚ :=
  if amount > 0 then amount else 0

/-- `trans.payee + (f" - {trans.memo}" if trans.memo else '')` — the QIF
description; `memo` of `None` or `""` is falsy. -/
def qifDescription (payee : String) (memo : Option String) : String :=
  payee ++ (match memo with
    | some m => if m = "" then "" else " - " ++ m
    | none => "")

/-- The duplicate query of `is_duplicate_in_account` (transaction_model.py
lines 287-294): a row of the same account whose date is within
`window_days` of the candidate, whose withdrawal and deposit are within
0.01, and whose description matches exactly. -/
def qif_dup_core (st : DBState) (trans : QIFRec) (account_id : String)
    (window_days : ℚ) : Bool :=
  st.transactions.any (fun row =>
    decide (trans.date.time - window_days ≤ row.date.time) &&
    decide (row.date.time ≤ trans.date.time + window_days) &&
    row.account == account_id &&
    decide (|row.withdrawal - qifWithdrawal trans.amount| < 1/100) &&
    decide (|row.deposit - qifDeposit trans.amount| < 1/100) &&
    row.description == qifDescription trans.payee trans.memo)

/-- `TransactionModel.is_duplicate_in_account` (lines 262-299).  The whole
body is wrapped in `try/except Exception: return False`; `dbError` injects
a database error inside the `try`. -/
def is_duplicate_in_account (st : DBState) (trans : QIFRec)
    (account_id : String) (dbError : Bool) : Bool :=
  if dbError then false
  else qif_dup_core st trans account_id 3

/-- The fuzzy fallback query of `is_duplicate_csv_in_account` (lines
401-408); the description compared is the bare `trans.payee`. -/
def csv_dup_fuzzy (st : DBState) (trans : CSVRec) (account_id : String)
    (window_days : ℚ) : Bool :=
  st.transactions.any (fun row =>
    decide (trans.date.time - window_days ≤ row.date.time) &&
    decide (row.date.time ≤ trans.date.time + window_days) &&
    row.account == account_id &&
    decide (|row.withdrawal - qifWithdrawal trans.amount| < 1/100) &&
    decide (|row.deposit - qifDeposit trans.amount| < 1/100) &&
    row.description == trans.payee)

/-- The `transaction_id` short-circuit of `is_duplicate_csv_in_account`
(lines 385-392): only taken for a truthy (non-null, nonempty) id, and hits
on an exact `(account, transaction_id)` row. -/
def csvTidShort (st : DBState) (tid? : Option String)
    (account_id : String) : Bool :=
  match tid? with
  | some tid =>
    tid != "" && st.transactions.any (fun row =>
      row.account == account_id && row.transaction_id == some tid)
  | none => false

/-- `TransactionModel.is_duplicate_csv_in_account` (lines 370-413): the
short-circuit, else the fuzzy query; `except Exception: return False`, with
`dbError` injecting a database error. -/
def is_duplicate_csv_in_account (st : DBState) (trans : CSVRec)
    (account_id : String) (dbError : Bool) : Bool :=
  if dbError then false
  else
    csvTidShort st trans.transaction_id account_id ||
    csv_dup_fuzzy st trans account_id 3

/-! ### Internal transfer detection (`detect_internal_transfers`,
transaction_model.py lines 969-1036) -/

/-- The validity query shared by the importers and the detector: the account
id names a `categories` row with `is_bank_account = 1 AND category_type =
'transaction'`. -/
def validBankAccount (st : DBState) (account_id : String) : Bool :=
  st.categories.any (fun c =>
    c.id == account_id && c.is_bank_account && c.category_type == "transaction")

/-- The inner match query (lines 1011-1019): first unmatched row of a
different account dated within `[date, date + 1 day]` whose net amount
cancels `amount` to within 0.01 (`LIMIT 1` without `ORDER BY` scans in
rowid order). -/
def findTransferMatch (ts : List TransactionRow) (account_id : String)
    (date : ℚ) (amount : ℚ) : Option Nat :=
  (ts.find? (fun o =>
    o.account != account_id &&
    decide (date ≤ o.date.time) && decide (o.date.time ≤ date + 1) &&
    decide (|(o.deposit - o.withdrawal) + amount| < 1/100) &&
    o.is_matched == false)).map (·.id)

/-- The pairing `UPDATE` (lines 1024-1029): both rows get `is_matched = 1,
is_internal_transfer = 1`; no other column is written. -/
def markMatched (ts : List TransactionRow) (i j : Nat) : List TransactionRow :=
  ts.map (fun t =>
    if t.id == i || t.id == j then
      { t with is_matched := true, is_internal_transfer := true }
    else t)

/-- One account's inner loop over its snapshot of unmatched rows (id, date,
withdrawal, deposit): zero-net rows are skipped, otherwise the first
opposite match in the live table is paired. -/
def processTransfers (account_id : String)
    (snap : List (Nat × ℚ × ℚ × ℚ)) (ts : List TransactionRow) :
    List TransactionRow :=
  match snap with
  | [] => ts
  | (tid, date, w, d) :: rest =>
    let amount := d - w
    if amount = 0 then processTransfers account_id rest ts
    else
      match findTransferMatch ts account_id date amount with
      | some mid => processTransfers account_id rest (markMatched ts tid mid)
      | none => processTransfers account_id rest ts

/-- `TransactionModel.detect_internal_transfers`: for every bank account,
snapshot its unmatched transactions ordered by date ascending (SQLite keeps
rowid order on ties) and run the pairing loop against the live table. -/
def detect_internal_transfers (st : DBState) : DBState :=
  let accounts := (st.categories.filter (fun c =>
    c.is_bank_account && c.category_type == "transaction")).map (·.id)
  { st with transactions := accounts.foldl (fun ts acc =>
      let snap := (sortByStable (fun a b => decide (a.date.time ≤ b.date.time))
          (ts.filter (fun t => t.account == acc && t.is_matched == false))).map
        (fun t => (t.id, t.date.time, t.withdrawal, t.deposit))
      processTransfers acc snap ts) st.transactions }

/-! ### Rule matching engine (transaction_model.py lines 675-876) -/

/-- Row of `auto_categorisation_rule_descriptions` for one rule, in
`sequence` order: `(operator, description_text, case_sensitive)`. -/
structure DescCond where
  operator : String
  text : String
  case_sensitive : Bool
deriving DecidableEq, Repr

/-- Row of `auto_categorisation_rules` joined with its description
conditions.  `category_id` is the stored TEXT value; `'0'` is the
internal-transfer marker (`create_auto_categorisation_rule`). -/
structure Rule where
  id : Nat
  category_id : String
  account_id : Option String
  amount_operator : String
  amount_value : Option ℚ
  amount_value2 : Option ℚ
  date_range : String
  apply_future : Bool
  conditions : List DescCond
deriving DecidableEq, Repr

/-- `_check_single_description` (lines 759-774): substring test, lower-cased
unless case-sensitive. -/
def check_single_description (description match_text : String)
    (case_sensitive : Bool) : Bool :=
  let d := if case_sensitive then description else strLower description
  let m := if case_sensitive then match_text else strLower match_text
  strContains d m

/-- `_check_description_conditions` (lines 722-757): empty list matches; the
first condition seeds the running result, later ones combine left to right
with their own `AND`/`OR` (anything but `'AND'` is treated as `OR`). -/
def check_description_conditions (description : String) :
    List DescCond → Bool
  | [] => true
  | c :: rest =>
    rest.foldl (fun result cond =>
        let m := check_single_description description cond.text
          cond.case_sensitive
        if cond.operator == "AND" then result && m else result || m)
      (check_single_description description c.text c.case_sensitive)

/-- Python truthiness of the stored `amount_value` (`not value1`): SQL
`NULL` or the number 0 are falsy. -/
def optRatFalsy : Option ℚ → Bool
  | none => true
  | some q => q == 0

/-- `_check_amount_condition` (lines 776-806).  Note the guard `if operator
== "Any" or not value1: return True` — a null or zero `value1` matches every
amount whatever the operator; `value2` is nulled when falsy before the
`Between` branch. -/
def check_amount_condition (amount : ℚ) (operator : String)
    (value1 value2 : Option ℚ) : Bool :=
  if operator == "Any" || optRatFalsy value1 then true
  else
    let a := |amount|
    let v1 := match value1 with | some v => v | none => 0
    let v2 : Option ℚ := match value2 with
      | some v => if v == 0 then none else some v
      | none => none
    if operator == "Equal to" then decide (|a - v1| < 1/100)
    else if operator == "Greater than" then decide (a > v1)
    else if operator == "Less than" then decide (a < v1)
    else if operator == "Between" then
      match v2 with
      | some w => decide (v1 ≤ a ∧ a ≤ w)
      | none => false
    else false

/-- `_check_date_condition` (lines 808-831): `today` is wall-clock time at
evaluation, `(today - trans_date).days` is the floored day difference. -/
def check_date_condition (trans_date : PyDate) (now : PyDate)
    (date_range : String) : Bool :=
  if date_range == "" || date_range == "Any" then true
  else if date_range == "Last 30 days" then
    decide (⌊now.time - trans_date.time⌋ ≤ 30)
  else if date_range == "Last 90 days" then
    decide (⌊now.time - trans_date.time⌋ ≤ 90)
  else if date_range == "This year" then trans_date.year == now.year
  else true

/-- `amount = transaction.withdrawal or transaction.deposit` (line 709):
the withdrawal when it is nonzero (truthy), else the deposit. -/
def ruleAmount (w d : ℚ) : ℚ :=
  if w ≠ 0 then w else d

/-- `_transaction_matches_rule` (lines 675-720) for a transaction row: the
account filter (falsy `account_id` means no filter), then description,
amount and date checks. -/
def transaction_matches_rule (t : TransactionRow) (rule : Rule)
    (now : PyDate) : Bool :=
  if (match rule.account_id with
      | none => false
      | some a => a != "" && t.account != a) then false
  else if !(check_description_conditions t.description rule.conditions)
    then false
  else if !(check_amount_condition (ruleAmount t.withdrawal t.deposit)
      rule.amount_operator rule.amount_value rule.amount_value2) then false
  else if !(check_date_condition t.date now rule.date_range) then false
  else true

/-- The selection of `get_transactions("uncategorised")` (lines 92-95):
`category_id IS NULL AND is_internal_transfer = 0 AND is_hidden = 0`. -/
def selectUncategorised (t : TransactionRow) : Bool :=
  t.category_id.isNone && t.is_internal_transfer == false &&
    t.is_hidden == false

/-- The per-transaction `UPDATE` of `apply_auto_categorisation_rules`
(lines 850-871): the `'0'` marker sets the internal-transfer state with a
null category, any other rule target sets the category. -/
def applyRuleTo (t : TransactionRow) (rule : Rule) : TransactionRow :=
  if rule.category_id == "0" then
    { t with category_id := none, is_internal_transfer := true,
             is_matched := true }
  else
    { t with category_id := some rule.category_id,
             is_internal_transfer := false, is_matched := false }

/-- The per-row effect of the rule loop (lines 848-871): a selected
transaction gets the first matching active rule's update, everything else
is left alone. -/
def applyRow (active : List Rule) (now : PyDate) (t : TransactionRow) :
    TransactionRow :=
  if selectUncategorised t then
    match active.find? (fun r => transaction_matches_rule t r now) with
    | some r => applyRuleTo t r
    | none => t
  else t

/-- `apply_auto_categorisation_rules` (lines 833-876): rules with
`apply_future = 1` are fetched in rowid order; every uncategorised,
non-transfer, non-hidden transaction gets the first matching rule's update
(`break` after the first match).  The code snapshots the selection and
updates rows by their unique rowid, which is this map. -/
def apply_auto_categorisation_rules (st : DBState) (rules : List Rule)
    (now : PyDate) : DBState :=
  { st with transactions :=
      st.transactions.map (applyRow (rules.filter (·.apply_future)) now) }

/-! ### Import pipeline (`import_qif_transactions` lines 197-260,
`import_csv_transactions` lines 301-368) -/

/-- The `INSERT` of the QIF import (lines 234-247).  Columns not named in
the statement keep their schema defaults; per the spec's data model a fresh
transaction is uncategorised and visible (`category_id = NULL`,
`is_hidden = 0` — `schema.sql` is not under `src/`). -/
def insertQif (st : DBState) (trans : QIFRec) (account_id : String) :
    DBState :=
  { st with
    transactions := st.transactions ++
      [{ id := st.nextTransId
         date := trans.date
         account := account_id
         description := qifDescription trans.payee trans.memo
         withdrawal := qifWithdrawal trans.amount
         deposit := qifDeposit trans.amount
         category_id := none
         is_hidden := false
         is_matched := false
         is_internal_transfer := false
         balance := none
         transaction_id := none }]
    nextTransId := st.nextTransId + 1 }

/-- The `INSERT` of the CSV import (lines 338-351): description is the bare
payee, the stored balance is `float(trans.balance) if trans.balance else
None` (falsy 0 becomes `NULL`), and `transaction_id` is stored as given. -/
def insertCsv (st : DBState) (trans : CSVRec) (account_id : String) :
    DBState :=
  { st with
    transactions := st.transactions ++
      [{ id := st.nextTransId
         date := trans.date
         account := account_id
         description := trans.payee
         withdrawal := qifWithdrawal trans.amount
         deposit := qifDeposit trans.amount
         category_id := none
         is_hidden := false
         is_matched := false
         is_internal_transfer := false
         balance := match trans.balance with
           | some b => if b == 0 then none else some b
           | none => none
         transaction_id := trans.transaction_id }]
    nextTransId := st.nextTransId + 1 }

/-- The record loop of the QIF import (lines 224-249), with injected
database errors: `dupErr i` makes the duplicate check of the `i`-th record
raise internally (caught there, yielding `False`), `insErr i` makes its
`INSERT` raise — which aborts the whole import. -/
def import_qif_loop (account_id : String) (dupErr insErr : Nat → Bool) :
    List QIFRec → Nat → DBState → Except String (Nat × Nat × DBState)
  | [], _, st => .ok (0, 0, st)
  | r :: rest, idx, st =>
    if is_duplicate_in_account st r account_id (dupErr idx) then
      match import_qif_loop account_id dupErr insErr rest (idx + 1) st with
      | .ok (i, d, st') => .ok (i, d + 1, st')
      | .error e => .error e
    else if insErr idx then .error "database error"
    else
      match import_qif_loop account_id dupErr insErr rest (idx + 1)
          (insertQif st r account_id) with
      | .ok (i, d, st') => .ok (i + 1, d, st')
      | .error e => .error e

/-- `TransactionModel.import_qif_transactions` (lines 197-260): the account
must be a leaf category flagged as bank account, else `ValueError`; records
are filtered through the duplicate check and inserted; after the commit the
transfer detector runs (it catches its own errors).  Any exception inside
the `try` rolls the connection back — an `.error` result leaves the
caller's state unchanged. -/
def import_qif_transactions (records : List QIFRec) (account_id : String)
    (st : DBState) (dupErr insErr : Nat → Bool) :
    Except String (Nat × Nat × DBState) :=
  if validBankAccount st account_id then
    match import_qif_loop account_id dupErr insErr records 0 st with
    | .ok (i, d, st') => .ok (i, d, detect_internal_transfers st')
    | .error e => .error ("Error importing transactions: " ++ e)
  else .error "Error importing transactions: Invalid bank account ID"

/-- The per-file reporting of `TransactionController.import_qif_files`
(transaction_controller.py lines 158-192): a successful import reports its
counts, any exception is caught and reported as `success = False,
imported_count = 0, duplicate_count = 0` with the store rolled back. -/
def import_qif_file_result (records : List QIFRec) (account_id : String)
    (st : DBState) (dupErr insErr : Nat → Bool) :
    Bool × Nat × Nat × DBState :=
  match import_qif_transactions records account_id st dupErr insErr with
  | .ok (i, d, st') => (true, i, d, st')
  | .error _ => (false, 0, 0, st)

/-- The scan of `_update_account_balance_from_csv` (lines 424-432): the
record with the latest date among those carrying a balance (strictly later
dates win, so the first record of a tied date is kept). -/
def latestBalanced (records : List CSVRec) : Option CSVRec :=
  records.foldl (fun acc r =>
    match r.balance with
    | none => acc
    | some _ =>
      match acc with
      | none => some r
      | some cur => if r.date.time > cur.date.time then some r else acc) none

/-- `_update_account_balance_from_csv` (lines 415-449): writes the latest
reported balance and the import timestamp onto the `bank_accounts` row.
(`latestBalanced` only keeps records whose balance is present, so the
code's `latest_transaction and latest_transaction.balance is not None`
guard is the bind being `some`.) -/
def update_account_balance_from_csv (st : DBState) (records : List CSVRec)
    (account_id : String) (now : ℚ) : DBState :=
  match (latestBalanced records).bind (fun tr => tr.balance) with
  | some b =>
    { st with bank_accounts := st.bank_accounts.map (fun a =>
        if a.id == account_id then
          { a with current_balance := some b, last_import_date := some now }
        else a) }
  | none => st

/-- The record loop of the CSV import (lines 328-353), with the same error
injection as the QIF loop. -/
def import_csv_loop (account_id : String) (dupErr insErr : Nat → Bool) :
    List CSVRec → Nat → DBState → Except String (Nat × Nat × DBState)
  | [], _, st => .ok (0, 0, st)
  | r :: rest, idx, st =>
    if is_duplicate_csv_in_account st r account_id (dupErr idx) then
      match import_csv_loop account_id dupErr insErr rest (idx + 1) st with
      | .ok (i, d, st') => .ok (i, d + 1, st')
      | .error e => .error e
    else if insErr idx then .error "database error"
    else
      match import_csv_loop account_id dupErr insErr rest (idx + 1)
          (insertCsv st r account_id) with
      | .ok (i, d, st') => .ok (i + 1, d, st')
      | .error e => .error e

/-- `TransactionModel.import_csv_transactions` (lines 301-368): like the
QIF import, plus the cached-balance update when the record list is
nonempty, before the transfer detector runs. -/
def import_csv_transactions (records : List CSVRec) (account_id : String)
    (st : DBState) (now : ℚ) (dupErr insErr : Nat → Bool) :
    Except String (Nat × Nat × DBState) :=
  if validBankAccount st account_id then
    match import_csv_loop account_id dupErr insErr records 0 st with
    | .ok (i, d, st') =>
      let st'' := if records.isEmpty then st'
        else update_account_balance_from_csv st' records account_id now
      .ok (i, d, detect_internal_transfers st'')
    | .error e => .error ("Error importing CSV transactions: " ++ e)
  else .error "Error importing CSV transactions: Invalid bank account ID"

/-- The error-free schedule: no injected database failures. -/
def noFault : Nat → Bool := fun _ => false

/-! ### Concrete states used by the counterexamples and failing inputs -/

/-- A hierarchy with a subtree `1.2 → 1.2.1`, a sibling branch `1.3`, and a
transaction categorised under the descendant `1.2.1`. -/
def stHier : DBState :=
  { categories := [
      ⟨"1", "Assets", none, "root", none, false⟩,
      ⟨"1.2", "Things", some "1", "group", none, false⟩,
      ⟨"1.2.1", "Sub", some "1.2", "transaction", none, false⟩,
      ⟨"1.3", "Other", some "1", "group", none, false⟩]
    transactions := [
      ⟨1, ⟨0, 2024⟩, "1.1.1", "groceries", 10, 0, some "1.2.1",
       false, false, false, none, none⟩]
    bank_accounts := []
    nextTransId := 2 }

/-- Two bank accounts, one opposite-amount pair on the same day; the
outgoing transaction is already categorised (and unmatched). -/
def stPaired : DBState :=
  { categories := [
      ⟨"1.1.1", "Checking", some "1.1", "transaction", none, true⟩,
      ⟨"1.1.2", "Savings", some "1.1", "transaction", none, true⟩]
    transactions := [
      ⟨1, ⟨0, 2024⟩, "1.1.1", "transfer out", 100, 0, some "5.3",
       false, false, false, none, none⟩,
      ⟨2, ⟨0, 2024⟩, "1.1.2", "transfer in", 0, 100, none,
       false, false, false, none, none⟩]
    bank_accounts := []
    nextTransId := 3 }

/-- A parent `1` whose children are `1.9` and `1.10`: the lexicographically
greatest child id (`1.9`) is not the numerically greatest (`1.10`). -/
def stTenKids : DBState :=
  { categories := [
      ⟨"1", "Assets", none, "root", none, false⟩,
      ⟨"1.9", "Nine", some "1", "group", none, false⟩,
      ⟨"1.10", "Ten", some "1", "group", none, false⟩]
    transactions := []
    bank_accounts := []
    nextTransId := 1 }

/-- A store already holding category `4.4` (the docstring's own example for
`find_next_available_id`). -/
def stTaken : DBState :=
  { categories := [
      ⟨"4", "Income", none, "root", none, false⟩,
      ⟨"4.4", "Salary", some "4", "group", none, false⟩]
    transactions := []
    bank_accounts := []
    nextTransId := 1 }

/-! ### Claim C1 -/

set_option maxRecDepth 40000 in
/-- Claim C1 (code_bug): the claim states that move, promote and demote all
rewrite the moved subtree's ids by prefix substitution AND repoint the
`category_id` of every transaction referencing the old id or any old
descendant id, so that afterwards no transaction points at a vanished id.
The code does not: `move_category` never touches the `transactions` table
at all, and `promote_category`/`demote_category` only repoint transactions
holding the exact old id of the moved node, not of its descendants.  On
`stHier` (transaction categorised under descendant `1.2.1`), each of
demote, promote and move reports success yet leaves that transaction
pointing at `"1.2.1"`, an id no longer present in `categories`. -/
theorem C1_subtree_rename_leaves_dangling_references :
    ((demote_category stHier "1.2" "1.3").1 = true ∧
      (∃ t ∈ (demote_category stHier "1.2" "1.3").2.transactions,
        t.category_id = some "1.2.1") ∧
      (∀ c ∈ (demote_category stHier "1.2" "1.3").2.categories,
        c.id ≠ "1.2.1")) ∧
    ((promote_category stHier "1.2").1 = true ∧
      (∃ t ∈ (promote_category stHier "1.2").2.transactions,
        t.category_id = some "1.2.1") ∧
      (∀ c ∈ (promote_category stHier "1.2").2.categories,
        c.id ≠ "1.2.1")) ∧
    ((move_category stHier "1.2" "1.3").1 = true ∧
      (move_category stHier "1.2" "1.3").2.transactions =
        stHier.transactions ∧
      (∃ t ∈ (move_category stHier "1.2" "1.3").2.transactions,
        t.category_id = some "1.2.1") ∧
      (∀ c ∈ (move_category stHier "1.2" "1.3").2.categories,
        c.id ≠ "1.2.1")) := by
  with_unfolding_all decide

/-! ### Claim C4 -/

/-- Claim C4 (code_bug): `find_next_available_id` is documented (docstring,
spec) to return `base_id` only when it is free and otherwise increment the
trailing segment until free, never returning a taken id.  Because the query
collects ids `LIKE base_id || '.%'` — which never matches `base_id` itself —
the membership test is vacuous for any dotted `base_id`: on `stTaken`,
which already holds category `"4.4"`, the call returns `"4.4"`, a taken id
(the docstring's own example demands `"4.5"`). -/
theorem C4_returns_taken_id :
    find_next_available_id stTaken "4.4" = "4.4" ∧
    (∃ c ∈ stTaken.categories, c.id = "4.4") := by
  decide

/-! ### Claim C2 -/

/-- Claim C2 (counterexample): the claim states that every transaction
paired by a detection run ends with `category_id = null`, and in particular
that no transaction has both `is_internal_transfer = true` and a non-null
`category_id` after detection.  The pairing `UPDATE` never writes
`category_id`: on `stPaired`, whose outgoing transaction is categorised
under `"5.3"` and unmatched, detection pairs the two rows and leaves the
category in place, producing a row with both flags. -/
theorem C2_counterexample_paired_keeps_category :
    ∃ t ∈ (detect_internal_transfers stPaired).transactions,
      t.is_matched = true ∧ t.is_internal_transfer = true ∧
      t.category_id = some "5.3" := by
  with_unfolding_all decide

/-! ### Claim C3 -/

/-- Claim C3 (counterexample): the claim states that insertion assigns
`parent_id ++ "." ++ (max existing sibling local numeric index + 1)` and
always succeeds, in particular with a sibling of local index ≥ 10 present.
On `stTenKids` (children `1.9` and `1.10`, numeric max 10) the claim
demands id `"1.11"`; the code takes the lexicographically greatest sibling
`"1.9"`, computes `"1.10"` — a taken id — and the insertion fails, leaving
the store unchanged. -/
theorem C3_counterexample_lexicographic_sibling_max :
    add_category_new_id stTenKids.categories "1" = some "1.10" ∧
    (∃ c ∈ stTenKids.categories, c.id = "1.10") ∧
    add_category stTenKids "New" "1" "group" none false =
      (false, stTenKids) := by
  with_unfolding_all decide

/-! ### Claim C5 -/

/-- Claim C5 (counterexample): the claim states that the `EqualTo` operator
matches exactly the amounts within 0.01 of `value1`, including when
`value1 = 0`.  The guard `if operator == "Any" or not value1` treats a zero
`value1` as falsy, so `EqualTo 0` matches an amount of 50 even though
`|50 - 0| ≥ 0.01`. -/
theorem C5_counterexample_equalto_zero_matches_everything :
    check_amount_condition 50 "Equal to" (some 0) none = true ∧
    ¬ (|(50 : ℚ) - 0| < 1/100) := by
  with_unfolding_all decide

/-! ### Claims C7 and C9: the rule engine's selection -/

/-- A transaction freshly written by a rule is never selected again: an
internal-transfer target raises `is_internal_transfer`, any other target
stores a non-null category. -/
theorem selectUncategorised_applyRuleTo (t : TransactionRow) (r : Rule) :
    selectUncategorised (applyRuleTo t r) = false := by
  unfold applyRuleTo
  by_cases h : r.category_id == "0" <;>
    simp [h, selectUncategorised]

/-- One pass of the per-row rule update is idempotent. -/
theorem applyRow_idem (active : List Rule) (now : PyDate)
    (t : TransactionRow) :
    applyRow active now (applyRow active now t) = applyRow active now t := by
  by_cases hs : selectUncategorised t
  · cases hfind : active.find? (fun r => transaction_matches_rule t r now) with
    | none => simp [applyRow, hs, hfind]
    | some r =>
      simp [applyRow, hs, hfind, selectUncategorised_applyRuleTo]
  · simp [applyRow, hs]

/-- Claim C7 (confirmed): `apply_auto_categorisation_rules` is idempotent —
a second run immediately after a first changes no transaction, because the
engine only selects rows with a null `category_id`, no transfer flag and no
hidden flag, and every applied rule either stores a non-null `category_id`
or raises `is_internal_transfer`. -/
theorem C7_rule_application_idempotent (st : DBState) (rules : List Rule)
    (now : PyDate) :
    apply_auto_categorisation_rules
        (apply_auto_categorisation_rules st rules now) rules now =
      apply_auto_categorisation_rules st rules now := by
  unfold apply_auto_categorisation_rules
  congr 1
  rw [List.map_map]
  exact List.map_congr_left (fun t _ => applyRow_idem _ _ t)

/-- Claim C9 (confirmed): rule application never touches hidden
transactions — every row with `is_hidden = true` is returned unchanged,
because the engine's selection requires `is_hidden = 0`. -/
theorem C9_rules_leave_hidden_rows_unchanged (st : DBState)
    (rules : List Rule) (now : PyDate) :
    List.Forall₂ (fun t t' => t.is_hidden = true → t' = t)
      st.transactions
      (apply_auto_categorisation_rules st rules now).transactions := by
  unfold apply_auto_categorisation_rules
  rw [List.forall₂_map_right_iff, List.forall₂_same]
  intro t _ hhid
  simp [applyRow, selectUncategorised, hhid]

/-! ### Claim C2, amended: what the detector actually writes -/

/-- The only mutation the transfer detector performs on a row: leave it
alone, or set both flags (and nothing else). -/
def flagTouch (t t' : TransactionRow) : Prop :=
  t' = t ∨ t' = { t with is_matched := true, is_internal_transfer := true }

theorem flagTouch_refl (t : TransactionRow) : flagTouch t t := Or.inl rfl

theorem flagTouch_trans {t t' t'' : TransactionRow}
    (h₁ : flagTouch t t') (h₂ : flagTouch t' t'') : flagTouch t t'' := by
  rcases h₁ with h₁ | h₁ <;> rcases h₂ with h₂ | h₂ <;> subst h₁ <;> subst h₂
  · exact Or.inl rfl
  · exact Or.inr rfl
  · exact Or.inr rfl
  · exact Or.inr rfl

theorem forall₂_flagTouch_refl (l : List TransactionRow) :
    List.Forall₂ flagTouch l l :=
  List.forall₂_same.2 (fun t _ => flagTouch_refl t)

theorem forall₂_flagTouch_trans {l₁ l₂ l₃ : List TransactionRow}
    (h₁ : List.Forall₂ flagTouch l₁ l₂) (h₂ : List.Forall₂ flagTouch l₂ l₃) :
    List.Forall₂ flagTouch l₁ l₃ := by
  induction h₁ generalizing l₃ with
  | nil => cases h₂; exact List.Forall₂.nil
  | cons hab h ih =>
    cases h₂ with
    | cons hbc h' => exact List.Forall₂.cons (flagTouch_trans hab hbc) (ih h')

theorem markMatched_flagTouch (ts : List TransactionRow) (i j : Nat) :
    List.Forall₂ flagTouch ts (markMatched ts i j) := by
  induction ts with
  | nil => exact List.Forall₂.nil
  | cons t rest ih =>
    refine List.Forall₂.cons ?_ ih
    by_cases h : (t.id == i || t.id == j) = true
    · exact Or.inr (by simp [markMatched, h])
    · exact Or.inl (by simp [markMatched, h])

theorem processTransfers_flagTouch (account_id : String)
    (snap : List (Nat × ℚ × ℚ × ℚ)) (ts : List TransactionRow) :
    List.Forall₂ flagTouch ts (processTransfers account_id snap ts) := by
  induction snap generalizing ts with
  | nil => exact forall₂_flagTouch_refl ts
  | cons p rest ih =>
    obtain ⟨tid, date, w, d⟩ := p
    show List.Forall₂ flagTouch ts
      (processTransfers account_id ((tid, date, w, d) :: rest) ts)
    unfold processTransfers
    by_cases hz : d - w = 0
    · simpa [hz] using ih ts
    · simp only [hz, if_neg hz]
      cases hfind : findTransferMatch ts account_id date (d - w) with
      | none => simpa [hfind] using ih ts
      | some mid =>
        simp only [hfind]
        exact forall₂_flagTouch_trans (markMatched_flagTouch ts tid mid)
          (ih (markMatched ts tid mid))

theorem detect_flagTouch (st : DBState) :
    List.Forall₂ flagTouch st.transactions
      (detect_internal_transfers st).transactions := by
  unfold detect_internal_transfers
  generalize ((st.categories.filter (fun c =>
    c.is_bank_account && c.category_type == "transaction")).map (·.id)) = accs
  show List.Forall₂ flagTouch st.transactions (accs.foldl _ st.transactions)
  generalize st.transactions = ts
  induction accs generalizing ts with
  | nil => exact forall₂_flagTouch_refl ts
  | cons a rest ih =>
    exact forall₂_flagTouch_trans
      (processTransfers_flagTouch a _ ts) (ih _)

/-- Claim C2, amended (theorem): a detection run sets `is_matched` and
`is_internal_transfer` on the rows it pairs and touches nothing else — in
particular it never writes `category_id`, so a row that was categorised
before the run keeps its category even when paired. -/
theorem C2_amended_detection_only_sets_flags (st : DBState) :
    List.Forall₂ (fun t t' =>
        t'.category_id = t.category_id ∧
        (t' = t ∨ (t'.is_matched = true ∧ t'.is_internal_transfer = true ∧
          t'.date = t.date ∧ t'.account = t.account ∧
          t'.description = t.description ∧ t'.withdrawal = t.withdrawal ∧
          t'.deposit = t.deposit ∧ t'.is_hidden = t.is_hidden ∧
          t'.balance = t.balance ∧ t'.transaction_id = t.transaction_id)))
      st.transactions (detect_internal_transfers st).transactions := by
  refine (detect_flagTouch st).imp (fun t t' h => ?_)
  rcases h with h | h <;> subst h
  · exact ⟨rfl, Or.inl rfl⟩
  · exact ⟨rfl, Or.inr ⟨rfl, rfl, rfl, rfl, rfl, rfl, rfl, rfl, rfl, rfl⟩⟩

/-! ### Claim C5, amended: the amount predicate with a truthy `value1` -/

/-- Claim C5, amended (theorem): the amount predicate behaves as the claim
states — `Any` matches everything, `EqualTo` within 0.01, strict
`GreaterThan`/`LessThan`, and `Between` with a non-null nonzero `value2`
inclusive at both ends — whenever `value1` is non-null and nonzero; a null
or zero `value1` makes the predicate match every amount regardless of the
operator, contrary to the claim's `value1 = 0` clause.  The compared
amount is the absolute value `|amount|` of the nonzero side `ruleAmount`. -/
theorem C5_amended_amount_predicate (amount v1 w : ℚ) (v2 : Option ℚ)
    (h1 : v1 ≠ 0) (hw : w ≠ 0) :
    check_amount_condition amount "Any" (some v1) v2 = true ∧
    (check_amount_condition amount "Equal to" (some v1) v2 = true ↔
      |(|amount|) - v1| < 1/100) ∧
    (check_amount_condition amount "Greater than" (some v1) v2 = true ↔
      |amount| > v1) ∧
    (check_amount_condition amount "Less than" (some v1) v2 = true ↔
      |amount| < v1) ∧
    (check_amount_condition amount "Between" (some v1) (some w) = true ↔
      (v1 ≤ |amount| ∧ |amount| ≤ w)) ∧
    (∀ op, check_amount_condition amount op none v2 = true) ∧
    (∀ op, check_amount_condition amount op (some 0) v2 = true) ∧
    (∀ wd dp : ℚ, ruleAmount wd dp = if wd ≠ 0 then wd else dp) := by
  have hv1 : (v1 == 0) = false := by simpa using h1
  have hwf : (w == 0) = false := by simpa using hw
  refine ⟨?_, ?_, ?_, ?_, ?_, ?_, ?_, fun _ _ => rfl⟩
  · simp [check_amount_condition]
  · simp [check_amount_condition, optRatFalsy, hv1]
  · simp [check_amount_condition, optRatFalsy, hv1]
  · simp [check_amount_condition, optRatFalsy, hv1]
  · simp [check_amount_condition, optRatFalsy, hv1, hwf]
  · intro op; simp [check_amount_condition, optRatFalsy]
  · intro op; simp [check_amount_condition, optRatFalsy]

/-- Witness for C5's amended theorem at a concrete rule and amount: the
spec's own scenario `Between(50, 100)` on a withdrawal of 75. -/
theorem C5_amended_amount_predicate_witness :
    check_amount_condition 75 "Between" (some 50) (some 100) = true := by
  have h := C5_amended_amount_predicate 75 50 100 none
    (by norm_num) (by norm_num)
  exact h.2.2.2.2.1.mpr (by norm_num [abs_of_nonneg])

/-! ### Claim C3, amended: what id the insertion actually assigns -/

/-- Binary maximum of two ids under the character-wise string order. -/
def strMax2 (a b : String) : String := if a.data < b.data then b else a

theorem strMax2_left (a b : String) : a.data ≤ (strMax2 a b).data := by
  unfold strMax2
  by_cases h : a.data < b.data
  · rw [if_pos h]; exact le_of_lt h
  · rw [if_neg h]

theorem strMax2_right (a b : String) : b.data ≤ (strMax2 a b).data := by
  unfold strMax2
  by_cases h : a.data < b.data
  · rw [if_pos h]
  · rw [if_neg h]; exact le_of_not_lt h

theorem strMax2_cases (a b : String) : strMax2 a b = a ∨ strMax2 a b = b := by
  unfold strMax2
  by_cases h : a.data < b.data
  · rw [if_pos h]; exact Or.inr rfl
  · rw [if_neg h]; exact Or.inl rfl

theorem foldl_maxStep_some (ids : List String) (m : String) :
    ids.foldl maxStep (some m) = some (ids.foldl strMax2 m) := by
  induction ids generalizing m with
  | nil => rfl
  | cons i rest ih =>
    show rest.foldl maxStep (maxStep (some m) i) = _
    have hstep : maxStep (some m) i = some (strMax2 m i) := by
      show (if m.data < i.data then some i else some m) =
        some (if m.data < i.data then i else m)
      by_cases h : m.data < i.data
      · rw [if_pos h, if_pos h]
      · rw [if_neg h, if_neg h]
    rw [hstep]
    exact ih (strMax2 m i)

theorem foldl_strMax2_le (ids : List String) (a : String) :
    a.data ≤ (ids.foldl strMax2 a).data ∧
      ∀ x ∈ ids, x.data ≤ (ids.foldl strMax2 a).data := by
  induction ids generalizing a with
  | nil => exact ⟨le_refl a.data, by simp⟩
  | cons b rest ih =>
    have hfold : (b :: rest).foldl strMax2 a = rest.foldl strMax2 (strMax2 a b) :=
      rfl
    rw [hfold]
    refine ⟨le_trans (strMax2_left a b) (ih (strMax2 a b)).1, ?_⟩
    intro x hx
    rcases List.mem_cons.1 hx with rfl | hx
    · exact le_trans (strMax2_right a x) (ih (strMax2 a x)).1
    · exact (ih (strMax2 a b)).2 x hx

theorem foldl_strMax2_mem (ids : List String) (a : String) :
    ids.foldl strMax2 a = a ∨ ids.foldl strMax2 a ∈ ids := by
  induction ids generalizing a with
  | nil => exact Or.inl rfl
  | cons b rest ih =>
    have hfold : (b :: rest).foldl strMax2 a = rest.foldl strMax2 (strMax2 a b) :=
      rfl
    rw [hfold]
    rcases ih (strMax2 a b) with h | h
    · rw [h]
      rcases strMax2_cases a b with h2 | h2
      · exact Or.inl h2
      · rw [h2]; exact Or.inr (List.mem_cons_self b rest)
    · exact Or.inr (List.mem_cons_of_mem b h)

/-- The `ORDER BY id DESC ... [0]` head is the string-greatest child id:
`maxChildId` returns any member that bounds all members from above. -/
theorem maxChildId_of_greatest (cats : List CategoryRow) (parent last : String)
    (hmem : last ∈ childIds cats parent)
    (hub : ∀ i ∈ childIds cats parent, i.data ≤ last.data) :
    maxChildId cats parent = some last := by
  unfold maxChildId
  obtain ⟨l, hl⟩ : ∃ l, childIds cats parent = l := ⟨_, rfl⟩
  rw [hl] at hmem hub ⊢
  cases l with
  | nil => simp at hmem
  | cons i rest =>
    show rest.foldl maxStep (maxStep none i) = some last
    rw [show maxStep none i = some i from rfl, foldl_maxStep_some]
    have hle : (rest.foldl strMax2 i).data ≤ last.data := by
      rcases foldl_strMax2_mem rest i with h | h
      · rw [h]; exact hub i (List.mem_cons_self i rest)
      · exact hub _ (List.mem_cons_of_mem i h)
    have hge : last.data ≤ (rest.foldl strMax2 i).data := by
      rcases List.mem_cons.1 hmem with rfl | h
      · exact (foldl_strMax2_le rest last).1
      · exact (foldl_strMax2_le rest i).2 last h
    exact congrArg some (String.toList_inj.mp (le_antisymm hle hge))

/-- Claim C3, amended (theorem): with no existing children the insertion
assigns `parent_id ++ ".1"`; otherwise it assigns `parent_id ++ "." ++
(numeric local index of the lexicographically greatest sibling id + 1)` —
not of the numerically greatest sibling — and it succeeds exactly when the
computed id does not collide with an existing category id, failing with the
store unchanged when it does (which can happen once a sibling with local
index ≥ 10 exists). -/
theorem C3_amended_insertion_id (st : DBState)
    (name parent ctype : String) (ttype : Option String) (ba : Bool) :
    (childIds st.categories parent = [] →
      add_category st name parent ctype ttype ba =
        (if st.categories.any (fun c => c.id == parent ++ ".1")
         then (false, st)
         else (true, { st with categories := st.categories ++
           [⟨parent ++ ".1", name, some parent, ctype, ttype, ba⟩] }))) ∧
    (∀ last_id n, last_id ∈ childIds st.categories parent →
      (∀ i ∈ childIds st.categories parent, i.data ≤ last_id.data) →
      pyInt? (lastSegment last_id) = some n →
      add_category st name parent ctype ttype ba =
        (if st.categories.any
            (fun c => c.id == parent ++ "." ++ toString (n + 1))
         then (false, st)
         else (true, { st with categories := st.categories ++
           [⟨parent ++ "." ++ toString (n + 1), name, some parent, ctype,
             ttype, ba⟩] }))) := by
  constructor
  · intro hempty
    have hmax : maxChildId st.categories parent = none := by
      unfold maxChildId; rw [hempty]; rfl
    have hid : add_category_new_id st.categories parent =
        some (parent ++ ".1") := by
      unfold add_category_new_id; rw [hmax]
    unfold add_category
    rw [hid]
  · intro last_id n hmem hub hn
    have hid : add_category_new_id st.categories parent =
        some (parent ++ "." ++ toString (n + 1)) := by
      unfold add_category_new_id
      rw [maxChildId_of_greatest st.categories parent last_id hmem hub]
      show (match pyInt? (lastSegment last_id) with
        | some n => some (parent ++ "." ++ toString (n + 1))
        | none => none) = some (parent ++ "." ++ toString (n + 1))
      rw [hn]
    unfold add_category
    rw [hid]

/-- Witness for C3's amended theorem: on `stTenKids` (children `1.9` and
`1.10`) the greatest sibling by string order is `1.9`, the computed id
`1.10` collides, and the insertion fails leaving the store unchanged. -/
theorem C3_amended_insertion_id_witness :
    add_category stTenKids "New" "1" "group" none false =
      (false, stTenKids) := by
  have h := (C3_amended_insertion_id stTenKids "New" "1" "group" none
    false).2 "1.9" 9 (by decide) (by decide) (by decide)
  rw [h]
  with_unfolding_all decide

/-! ### Row preservation across the import pipeline

The duplicate queries read only a row's date, account, amounts, description
and external id; the pipeline's later stages (transfer detection, balance
caching) never change those columns.  `rowsPreserved` captures that every
row survives with its identity columns intact. -/

/-- The columns the duplicate queries compare. -/
def sameIdentity (t t' : TransactionRow) : Prop :=
  t'.date = t.date ∧ t'.account = t.account ∧ t'.withdrawal = t.withdrawal ∧
  t'.deposit = t.deposit ∧ t'.description = t.description ∧
  t'.transaction_id = t.transaction_id

theorem sameIdentity_refl (t : TransactionRow) : sameIdentity t t :=
  ⟨rfl, rfl, rfl, rfl, rfl, rfl⟩

theorem sameIdentity_trans {a b c : TransactionRow}
    (h₁ : sameIdentity a b) (h₂ : sameIdentity b c) : sameIdentity a c := by
  obtain ⟨d1, a1, w1, p1, s1, x1⟩ := h₁
  obtain ⟨d2, a2, w2, p2, s2, x2⟩ := h₂
  exact ⟨d2.trans d1, a2.trans a1, w2.trans w1, p2.trans p1, s2.trans s1,
    x2.trans x1⟩

/-- Every row of `st` has a counterpart in `st'` with the same identity
columns. -/
def rowsPreserved (st st' : DBState) : Prop :=
  ∀ t ∈ st.transactions, ∃ t' ∈ st'.transactions, sameIdentity t t'

theorem rowsPreserved_refl (st : DBState) : rowsPreserved st st :=
  fun t ht => ⟨t, ht, sameIdentity_refl t⟩

theorem rowsPreserved_trans {s₁ s₂ s₃ : DBState}
    (h₁ : rowsPreserved s₁ s₂) (h₂ : rowsPreserved s₂ s₃) :
    rowsPreserved s₁ s₃ := by
  intro t ht
  obtain ⟨t', ht', hid⟩ := h₁ t ht
  obtain ⟨t'', ht'', hid'⟩ := h₂ t' ht'
  exact ⟨t'', ht'', sameIdentity_trans hid hid'⟩

theorem rowsPreserved_of_transactions_eq {st st' : DBState}
    (h : st'.transactions = st.transactions) : rowsPreserved st st' :=
  fun t ht => ⟨t, h ▸ ht, sameIdentity_refl t⟩

theorem forall₂_mem_exists {α β : Type} {R : α → β → Prop}
    {l₁ : List α} {l₂ : List β} (h : List.Forall₂ R l₁ l₂) :
    ∀ t ∈ l₁, ∃ t' ∈ l₂, R t t' := by
  induction h with
  | nil => intro t ht; simp at ht
  | cons hab h ih =>
    intro t ht
    rcases List.mem_cons.1 ht with rfl | ht
    · exact ⟨_, List.mem_cons_self _ _, hab⟩
    · obtain ⟨t', ht', hR⟩ := ih t ht
      exact ⟨t', List.mem_cons_of_mem _ ht', hR⟩

theorem flagTouch_sameIdentity {t t' : TransactionRow}
    (h : flagTouch t t') : sameIdentity t t' := by
  rcases h with h | h <;> subst h
  · exact sameIdentity_refl _
  · exact ⟨rfl, rfl, rfl, rfl, rfl, rfl⟩

theorem rowsPreserved_detect (st : DBState) :
    rowsPreserved st (detect_internal_transfers st) := by
  intro t ht
  obtain ⟨t', ht', hft⟩ := forall₂_mem_exists (detect_flagTouch st) t ht
  exact ⟨t', ht', flagTouch_sameIdentity hft⟩

theorem detect_categories (st : DBState) :
    (detect_internal_transfers st).categories = st.categories := rfl

theorem detect_transactions_length (st : DBState) :
    (detect_internal_transfers st).transactions.length =
      st.transactions.length :=
  (detect_flagTouch st).length_eq.symm

theorem insertQif_categories (st : DBState) (r : QIFRec) (acc : String) :
    (insertQif st r acc).categories = st.categories := rfl

theorem insertCsv_categories (st : DBState) (r : CSVRec) (acc : String) :
    (insertCsv st r acc).categories = st.categories := rfl

theorem rowsPreserved_insertQif (st : DBState) (r : QIFRec) (acc : String) :
    rowsPreserved st (insertQif st r acc) :=
  fun t ht => ⟨t, List.mem_append.mpr (Or.inl ht), sameIdentity_refl t⟩

theorem rowsPreserved_insertCsv (st : DBState) (r : CSVRec) (acc : String) :
    rowsPreserved st (insertCsv st r acc) :=
  fun t ht => ⟨t, List.mem_append.mpr (Or.inl ht), sameIdentity_refl t⟩

theorem balance_update_transactions (st : DBState) (records : List CSVRec)
    (acc : String) (now : ℚ) :
    (update_account_balance_from_csv st records acc now).transactions =
      st.transactions := by
  unfold update_account_balance_from_csv
  cases (latestBalanced records).bind (fun tr => tr.balance) <;> rfl

theorem balance_update_categories (st : DBState) (records : List CSVRec)
    (acc : String) (now : ℚ) :
    (update_account_balance_from_csv st records acc now).categories =
      st.categories := by
  unfold update_account_balance_from_csv
  cases (latestBalanced records).bind (fun tr => tr.balance) <;> rfl

theorem validBankAccount_congr {st st' : DBState} (a : String)
    (h : st'.categories = st.categories) :
    validBankAccount st' a = validBankAccount st a := by
  unfold validBankAccount
  rw [h]

/-! ### Duplicate checks survive later pipeline stages -/

theorem qif_dup_core_mono {st st' : DBState} {r : QIFRec} {acc : String}
    {w : ℚ} (h : qif_dup_core st r acc w = true)
    (hp : rowsPreserved st st') : qif_dup_core st' r acc w = true := by
  unfold qif_dup_core at h ⊢
  rw [List.any_eq_true] at h ⊢
  obtain ⟨row, hrow, hpred⟩ := h
  obtain ⟨row', hrow', hid⟩ := hp row hrow
  obtain ⟨hd, ha, hw, hdep, hdesc, _⟩ := hid
  refine ⟨row', hrow', ?_⟩
  rw [hd, ha, hw, hdep, hdesc]
  exact hpred

theorem csvTidShort_mono {st st' : DBState} {tid? : Option String}
    {acc : String} (h : csvTidShort st tid? acc = true)
    (hp : rowsPreserved st st') : csvTidShort st' tid? acc = true := by
  cases tid? with
  | none => exact absurd h (by simp [csvTidShort])
  | some tid =>
    unfold csvTidShort at h ⊢
    rw [Bool.and_eq_true] at h ⊢
    refine ⟨h.1, ?_⟩
    rw [List.any_eq_true] at h ⊢
    obtain ⟨row, hrow, hpred⟩ := h.2
    obtain ⟨row', hrow', hid⟩ := hp row hrow
    obtain ⟨_, ha, _, _, _, hx⟩ := hid
    refine ⟨row', hrow', ?_⟩
    rw [ha, hx]
    exact hpred

theorem csv_dup_mono {st st' : DBState} {r : CSVRec} {acc : String}
    (h : is_duplicate_csv_in_account st r acc false = true)
    (hp : rowsPreserved st st') :
    is_duplicate_csv_in_account st' r acc false = true := by
  unfold is_duplicate_csv_in_account at h ⊢
  simp only [if_neg (by simp : ¬ (false = true))] at h ⊢
  rw [Bool.or_eq_true] at h ⊢
  rcases h with h | h
  · exact Or.inl (csvTidShort_mono h hp)
  · right
    unfold csv_dup_fuzzy at h ⊢
    rw [List.any_eq_true] at h ⊢
    obtain ⟨row, hrow, hpred⟩ := h
    obtain ⟨row', hrow', hid⟩ := hp row hrow
    obtain ⟨hd, ha, hw, hdep, hdesc, _⟩ := hid
    refine ⟨row', hrow', ?_⟩
    rw [hd, ha, hw, hdep, hdesc]
    exact hpred

/-- A record just inserted by the QIF import is detected as its own
duplicate: the new row matches on every column of the fuzzy query. -/
theorem qif_dup_self (st : DBState) (r : QIFRec) (acc : String) :
    qif_dup_core (insertQif st r acc) r acc 3 = true := by
  have h1 : r.date.time - 3 ≤ r.date.time := by linarith
  have h2 : r.date.time ≤ r.date.time + 3 := by linarith
  have h3 : |qifWithdrawal r.amount - qifWithdrawal r.amount| < 1/100 := by
    rw [sub_self, abs_zero]; norm_num
  have h4 : |qifDeposit r.amount - qifDeposit r.amount| < 1/100 := by
    rw [sub_self, abs_zero]; norm_num
  unfold qif_dup_core insertQif
  rw [List.any_eq_true]
  refine ⟨_, List.mem_append.mpr (Or.inr (List.mem_singleton.mpr rfl)), ?_⟩
  simp [h1, h2, h3, h4]

/-- A record just inserted by the CSV import is detected as its own
duplicate through the fuzzy fallback. -/
theorem csv_dup_self (st : DBState) (r : CSVRec) (acc : String) :
    is_duplicate_csv_in_account (insertCsv st r acc) r acc false = true := by
  have h1 : r.date.time - 3 ≤ r.date.time := by linarith
  have h2 : r.date.time ≤ r.date.time + 3 := by linarith
  have h3 : |qifWithdrawal r.amount - qifWithdrawal r.amount| < 1/100 := by
    rw [sub_self, abs_zero]; norm_num
  have h4 : |qifDeposit r.amount - qifDeposit r.amount| < 1/100 := by
    rw [sub_self, abs_zero]; norm_num
  unfold is_duplicate_csv_in_account
  simp only [if_neg (by simp : ¬ (false = true))]
  rw [Bool.or_eq_true]
  right
  unfold csv_dup_fuzzy insertCsv
  rw [List.any_eq_true]
  refine ⟨_, List.mem_append.mpr (Or.inr (List.mem_singleton.mpr rfl)), ?_⟩
  simp [h1, h2, h3, h4]

/-! ### The record loops of the two importers -/

theorem import_qif_loop_cons (acc : String) (dupErr insErr : Nat → Bool)
    (r : QIFRec) (rest : List QIFRec) (idx : Nat) (st : DBState) :
    import_qif_loop acc dupErr insErr (r :: rest) idx st =
      if is_duplicate_in_account st r acc (dupErr idx) then
        (match import_qif_loop acc dupErr insErr rest (idx + 1) st with
          | .ok (i, d, st') => .ok (i, d + 1, st')
          | .error e => .error e)
      else if insErr idx then .error "database error"
      else
        (match import_qif_loop acc dupErr insErr rest (idx + 1)
            (insertQif st r acc) with
          | .ok (i, d, st') => .ok (i + 1, d, st')
          | .error e => .error e) := rfl

theorem import_csv_loop_cons (acc : String) (dupErr insErr : Nat → Bool)
    (r : CSVRec) (rest : List CSVRec) (idx : Nat) (st : DBState) :
    import_csv_loop acc dupErr insErr (r :: rest) idx st =
      if is_duplicate_csv_in_account st r acc (dupErr idx) then
        (match import_csv_loop acc dupErr insErr rest (idx + 1) st with
          | .ok (i, d, st') => .ok (i, d + 1, st')
          | .error e => .error e)
      else if insErr idx then .error "database error"
      else
        (match import_csv_loop acc dupErr insErr rest (idx + 1)
            (insertCsv st r acc) with
          | .ok (i, d, st') => .ok (i + 1, d, st')
          | .error e => .error e) := rfl

/-- An error-free QIF record loop always succeeds, keeps the categories,
preserves every pre-existing row's identity columns, and ends in a state
where every processed record is detected as a duplicate. -/
theorem qif_loop_ok (acc : String) :
    ∀ (records : List QIFRec) (idx : Nat) (st : DBState),
      ∃ i d st',
        import_qif_loop acc noFault noFault records idx st =
          .ok (i, d, st') ∧
        st'.categories = st.categories ∧
        rowsPreserved st st' ∧
        ∀ r ∈ records, qif_dup_core st' r acc 3 = true := by
  intro records
  induction records with
  | nil =>
    intro idx st
    exact ⟨0, 0, st, rfl, rfl, rowsPreserved_refl st, by simp⟩
  | cons r rest ih =>
    intro idx st
    by_cases hdup : qif_dup_core st r acc 3 = true
    · obtain ⟨i, d, st', heq, hcats, hpres, hdups⟩ := ih (idx + 1) st
      have hc : is_duplicate_in_account st r acc (noFault idx) = true := hdup
      refine ⟨i, d + 1, st', ?_, hcats, hpres, ?_⟩
      · rw [import_qif_loop_cons, if_pos hc, heq]
      · intro x hx
        rcases List.mem_cons.1 hx with rfl | hx
        · exact qif_dup_core_mono hdup hpres
        · exact hdups x hx
    · obtain ⟨i, d, st', heq, hcats, hpres, hdups⟩ :=
        ih (idx + 1) (insertQif st r acc)
      have hnc : ¬ (is_duplicate_in_account st r acc (noFault idx) = true) :=
        hdup
      refine ⟨i + 1, d, st', ?_, ?_, ?_, ?_⟩
      · rw [import_qif_loop_cons, if_neg hnc,
          if_neg (by simp [noFault] : ¬ (noFault idx = true)), heq]
      · exact hcats.trans (insertQif_categories st r acc)
      · exact rowsPreserved_trans (rowsPreserved_insertQif st r acc) hpres
      · intro x hx
        rcases List.mem_cons.1 hx with rfl | hx
        · exact qif_dup_core_mono (qif_dup_self st x acc) hpres
        · exact hdups x hx

/-- A QIF record loop over records that are all already duplicates imports
nothing: every record is skipped and the state is untouched. -/
theorem qif_loop_all_dup (acc : String) :
    ∀ (records : List QIFRec) (idx : Nat) (st : DBState),
      (∀ r ∈ records, qif_dup_core st r acc 3 = true) →
      import_qif_loop acc noFault noFault records idx st =
        .ok (0, records.length, st) := by
  intro records
  induction records with
  | nil => intro idx st _; rfl
  | cons r rest ih =>
    intro idx st h
    have hc : is_duplicate_in_account st r acc (noFault idx) = true :=
      h r (List.mem_cons_self r rest)
    rw [import_qif_loop_cons, if_pos hc,
      ih (idx + 1) st (fun x hx => h x (List.mem_cons_of_mem r hx))]
    rfl

/-- An error-free CSV record loop: same shape as the QIF loop. -/
theorem csv_loop_ok (acc : String) :
    ∀ (records : List CSVRec) (idx : Nat) (st : DBState),
      ∃ i d st',
        import_csv_loop acc noFault noFault records idx st =
          .ok (i, d, st') ∧
        st'.categories = st.categories ∧
        rowsPreserved st st' ∧
        ∀ r ∈ records, is_duplicate_csv_in_account st' r acc false = true := by
  intro records
  induction records with
  | nil =>
    intro idx st
    exact ⟨0, 0, st, rfl, rfl, rowsPreserved_refl st, by simp⟩
  | cons r rest ih =>
    intro idx st
    by_cases hdup : is_duplicate_csv_in_account st r acc false = true
    · obtain ⟨i, d, st', heq, hcats, hpres, hdups⟩ := ih (idx + 1) st
      have hc : is_duplicate_csv_in_account st r acc (noFault idx) = true :=
        hdup
      refine ⟨i, d + 1, st', ?_, hcats, hpres, ?_⟩
      · rw [import_csv_loop_cons, if_pos hc, heq]
      · intro x hx
        rcases List.mem_cons.1 hx with rfl | hx
        · exact csv_dup_mono hdup hpres
        · exact hdups x hx
    · obtain ⟨i, d, st', heq, hcats, hpres, hdups⟩ :=
        ih (idx + 1) (insertCsv st r acc)
      have hnc :
          ¬ (is_duplicate_csv_in_account st r acc (noFault idx) = true) :=
        hdup
      refine ⟨i + 1, d, st', ?_, ?_, ?_, ?_⟩
      · rw [import_csv_loop_cons, if_neg hnc,
          if_neg (by simp [noFault] : ¬ (noFault idx = true)), heq]
      · exact hcats.trans (insertCsv_categories st r acc)
      · exact rowsPreserved_trans (rowsPreserved_insertCsv st r acc) hpres
      · intro x hx
        rcases List.mem_cons.1 hx with rfl | hx
        · exact csv_dup_mono (csv_dup_self st x acc) hpres
        · exact hdups x hx

/-- A CSV record loop over records that are all already duplicates imports
nothing. -/
theorem csv_loop_all_dup (acc : String) :
    ∀ (records : List CSVRec) (idx : Nat) (st : DBState),
      (∀ r ∈ records, is_duplicate_csv_in_account st r acc false = true) →
      import_csv_loop acc noFault noFault records idx st =
        .ok (0, records.length, st) := by
  intro records
  induction records with
  | nil => intro idx st _; rfl
  | cons r rest ih =>
    intro idx st h
    have hc : is_duplicate_csv_in_account st r acc (noFault idx) = true :=
      h r (List.mem_cons_self r rest)
    rw [import_csv_loop_cons, if_pos hc,
      ih (idx + 1) st (fun x hx => h x (List.mem_cons_of_mem r hx))]
    rfl

theorem post_loop_transactions (stL : DBState) (records : List CSVRec)
    (acc : String) (now : ℚ) :
    (if records.isEmpty then stL
     else update_account_balance_from_csv stL records acc now).transactions =
      stL.transactions := by
  by_cases he : records.isEmpty
  · rw [if_pos he]
  · rw [if_neg he]; exact balance_update_transactions stL records acc now

theorem post_loop_categories (stL : DBState) (records : List CSVRec)
    (acc : String) (now : ℚ) :
    (if records.isEmpty then stL
     else update_account_balance_from_csv stL records acc now).categories =
      stL.categories := by
  by_cases he : records.isEmpty
  · rw [if_pos he]
  · rw [if_neg he]; exact balance_update_categories stL records acc now

/-! ### Claim C6 -/

/-- Claim C6 (confirmed): importing a record list twice into the same valid
account yields `imported_count = 0` and `duplicate_count = len(records)` on
the second run, which also inserts no transaction rows — for the QIF and
the CSV importer alike.  Every record of the first run either persists as a
freshly inserted row or already had a matching row, and later pipeline
stages (transfer detection, balance caching) never change the columns the
duplicate queries compare. -/
theorem C6_second_import_all_duplicates (records : List QIFRec)
    (csvRecords : List CSVRec) (acc : String) (st : DBState) (now : ℚ)
    (hvalid : validBankAccount st acc = true) :
    (∀ i1 d1 st1,
      import_qif_transactions records acc st noFault noFault =
        .ok (i1, d1, st1) →
      ∃ st2, import_qif_transactions records acc st1 noFault noFault =
          .ok (0, records.length, st2) ∧
        st2.transactions.length = st1.transactions.length) ∧
    (∀ i1 d1 st1,
      import_csv_transactions csvRecords acc st now noFault noFault =
        .ok (i1, d1, st1) →
      ∃ st2, import_csv_transactions csvRecords acc st1 now noFault noFault =
          .ok (0, csvRecords.length, st2) ∧
        st2.transactions.length = st1.transactions.length) := by
  constructor
  · intro i1 d1 st1 h1
    obtain ⟨i, d, stL, heq, hcats, hpres, hdups⟩ :=
      qif_loop_ok acc records 0 st
    have himp : import_qif_transactions records acc st noFault noFault =
        .ok (i, d, detect_internal_transfers stL) := by
      unfold import_qif_transactions
      rw [if_pos hvalid, heq]
    have h2 := h1.symm.trans himp
    simp only [Except.ok.injEq, Prod.mk.injEq] at h2
    obtain ⟨hi1, hd1, hst1⟩ := h2
    subst hst1
    have hvalid1 :
        validBankAccount (detect_internal_transfers stL) acc = true :=
      ((validBankAccount_congr acc
          (detect_categories stL)).trans
        (validBankAccount_congr acc hcats)).trans hvalid
    have hdupsD : ∀ r ∈ records,
        qif_dup_core (detect_internal_transfers stL) r acc 3 = true :=
      fun r hr => qif_dup_core_mono (hdups r hr) (rowsPreserved_detect stL)
    refine ⟨detect_internal_transfers (detect_internal_transfers stL),
      ?_, ?_⟩
    · unfold import_qif_transactions
      rw [if_pos hvalid1,
        qif_loop_all_dup acc records 0 (detect_internal_transfers stL)
          hdupsD]
    · exact detect_transactions_length _
  · intro i1 d1 st1 h1
    obtain ⟨i, d, stL, heq, hcats, hpres, hdups⟩ :=
      csv_loop_ok acc csvRecords 0 st
    have himp : import_csv_transactions csvRecords acc st now noFault
        noFault = .ok (i, d, detect_internal_transfers
          (if csvRecords.isEmpty then stL
           else update_account_balance_from_csv stL csvRecords acc now)) := by
      unfold import_csv_transactions
      rw [if_pos hvalid, heq]
    have h2 := h1.symm.trans himp
    simp only [Except.ok.injEq, Prod.mk.injEq] at h2
    obtain ⟨hi1, hd1, hst1⟩ := h2
    subst hst1
    have hvalid1 : validBankAccount (detect_internal_transfers
        (if csvRecords.isEmpty then stL
         else update_account_balance_from_csv stL csvRecords acc now))
        acc = true :=
      ((validBankAccount_congr acc (detect_categories _)).trans
        ((validBankAccount_congr acc
            (post_loop_categories stL csvRecords acc now)).trans
          (validBankAccount_congr acc hcats))).trans hvalid
    have hpresB : rowsPreserved stL (detect_internal_transfers
        (if csvRecords.isEmpty then stL
         else update_account_balance_from_csv stL csvRecords acc now)) :=
      rowsPreserved_trans
        (rowsPreserved_of_transactions_eq
          (post_loop_transactions stL csvRecords acc now))
        (rowsPreserved_detect _)
    have hdupsD : ∀ r ∈ csvRecords,
        is_duplicate_csv_in_account (detect_internal_transfers
          (if csvRecords.isEmpty then stL
           else update_account_balance_from_csv stL csvRecords acc now))
          r acc false = true :=
      fun r hr => csv_dup_mono (hdups r hr) hpresB
    refine ⟨detect_internal_transfers
        (if csvRecords.isEmpty then
          detect_internal_transfers
            (if csvRecords.isEmpty then stL
             else update_account_balance_from_csv stL csvRecords acc now)
         else update_account_balance_from_csv
          (detect_internal_transfers
            (if csvRecords.isEmpty then stL
             else update_account_balance_from_csv stL csvRecords acc now))
          csvRecords acc now), ?_, ?_⟩
    · unfold import_csv_transactions
      rw [if_pos hvalid1, csv_loop_all_dup acc csvRecords 0 _ hdupsD]
    · exact (detect_transactions_length _).trans
        (congrArg List.length
          (post_loop_transactions _ csvRecords acc now))

/-- A concrete valid store: one leaf category flagged as a bank account. -/
def stBank : DBState :=
  { categories := [⟨"1.1.1", "Checking", some "1.1", "transaction", none,
      true⟩]
    transactions := []
    bank_accounts := []
    nextTransId := 1 }

/-- Witness for C6 at a concrete store and record list. -/
theorem C6_second_import_all_duplicates_witness :
    ∃ st2, import_qif_transactions [] "1.1.1"
        (detect_internal_transfers stBank) noFault noFault =
      .ok (0, 0, st2) ∧
      st2.transactions.length =
        (detect_internal_transfers stBank).transactions.length :=
  (C6_second_import_all_duplicates [] [] "1.1.1" stBank 0 (by decide)).1
    0 0 (detect_internal_transfers stBank) rfl

/-! ### Claim C8 -/

/-- Claim C8 (confirmed): an import into an account id that does not
resolve to a leaf category flagged as bank account fails with an error and
writes nothing (the store it would return is the caller's, unchanged); and
any failing import call — the duplicate-check and insert faults are
arbitrary — is reported by the controller as `success = false` with zero
imported and duplicate counts, over the rolled-back (unchanged) store. -/
theorem C8_invalid_account_and_rollback (records : List QIFRec)
    (csvRecords : List CSVRec) (acc : String) (st : DBState) (now : ℚ)
    (dupErr insErr : Nat → Bool) :
    (validBankAccount st acc = false →
      import_qif_transactions records acc st dupErr insErr =
        .error "Error importing transactions: Invalid bank account ID" ∧
      import_csv_transactions csvRecords acc st now dupErr insErr =
        .error "Error importing CSV transactions: Invalid bank account ID") ∧
    (∀ e, import_qif_transactions records acc st dupErr insErr = .error e →
      import_qif_file_result records acc st dupErr insErr =
        (false, 0, 0, st)) := by
  constructor
  · intro h
    have h' : ¬ (validBankAccount st acc = true) := by rw [h]; simp
    constructor
    · unfold import_qif_transactions
      rw [if_neg h']
    · unfold import_csv_transactions
      rw [if_neg h']
  · intro e he
    unfold import_qif_file_result
    rw [he]

/-- Witness for C8: importing into the unknown account `9.9` errors out and
the controller reports zero counts over the untouched store. -/
theorem C8_invalid_account_and_rollback_witness :
    import_qif_transactions [] "9.9" stBank noFault noFault =
      .error "Error importing transactions: Invalid bank account ID" ∧
    import_qif_file_result [] "9.9" stBank noFault noFault =
      (false, 0, 0, stBank) := by
  have h := C8_invalid_account_and_rollback [] [] "9.9" stBank 0 noFault
    noFault
  exact ⟨(h.1 (by decide)).1, h.2 _ ((h.1 (by decide)).1)⟩

/-! ### Claim C10 -/

theorem insertQif_transactions_length (st : DBState) (r : QIFRec)
    (acc : String) :
    (insertQif st r acc).transactions.length =
      st.transactions.length + 1 := by
  simp [insertQif]

/-- A QIF record loop whose duplicate checks all error internally treats
every record as new and inserts it. -/
theorem qif_loop_dup_err (acc : String) :
    ∀ (records : List QIFRec) (idx : Nat) (st : DBState),
      ∃ st', import_qif_loop acc (fun _ => true) noFault records idx st =
          .ok (records.length, 0, st') ∧
        st'.transactions.length =
          st.transactions.length + records.length := by
  intro records
  induction records with
  | nil => intro idx st; exact ⟨st, rfl, by simp⟩
  | cons r rest ih =>
    intro idx st
    obtain ⟨st', heq, hlen⟩ := ih (idx + 1) (insertQif st r acc)
    have hnc :
        ¬ (is_duplicate_in_account st r acc ((fun _ => true) idx) = true) :=
      by simp [is_duplicate_in_account]
    refine ⟨st', ?_, ?_⟩
    · rw [import_qif_loop_cons, if_neg hnc,
        if_neg (by simp [noFault] : ¬ (noFault idx = true)), heq]
      rfl
    · rw [hlen, insertQif_transactions_length]
      simp only [List.length_cons]
      omega

/-- Claim C10 (confirmed): an internally erroring duplicate check returns
`false` instead of propagating — for the QIF and the CSV variant — so the
candidate record is treated as new; under an always-erroring duplicate
check a whole import still completes, classifies nothing as duplicate, and
inserts every record. -/
theorem C10_dup_check_error_means_new (st0 : DBState) (r0 : QIFRec)
    (c0 : CSVRec) (acc0 : String) :
    is_duplicate_in_account st0 r0 acc0 true = false ∧
    is_duplicate_csv_in_account st0 c0 acc0 true = false ∧
    (∀ (records : List QIFRec) (acc : String) (st : DBState),
      validBankAccount st acc = true →
      ∃ st', import_qif_transactions records acc st (fun _ => true)
          noFault = .ok (records.length, 0, st') ∧
        st'.transactions.length =
          st.transactions.length + records.length) := by
  refine ⟨rfl, rfl, ?_⟩
  intro records acc st hvalid
  obtain ⟨st', heq, hlen⟩ := qif_loop_dup_err acc records 0 st
  refine ⟨detect_internal_transfers st', ?_, ?_⟩
  · unfold import_qif_transactions
    rw [if_pos hvalid, heq]
  · exact (detect_transactions_length st').trans hlen

/-- A concrete QIF record for the C10 witness. -/
def recW : QIFRec := ⟨⟨0, 2024⟩, -50, "COFFEE SHOP", none⟩

/-- Witness for C10: with the duplicate check erroring on every record, the
one-record import into the valid account inserts the record. -/
theorem C10_dup_check_error_means_new_witness :
    ∃ st', import_qif_transactions [recW] "1.1.1" stBank (fun _ => true)
        noFault = .ok (1, 0, st') ∧
      st'.transactions.length = stBank.transactions.length + 1 :=
  (C10_dup_check_error_means_new stBank recW
    ⟨⟨0, 2024⟩, -50, "X", none, none, none⟩ "1.1.1").2.2
    [recW] "1.1.1" stBank (by decide)

end BNB
